import Mathlib

/-!
Verification development for the portcache repository (a caching HTTP
mirror for distfiles).  The definitions below are shallow embeddings of
the Rust sources under `src/src/`; each definition's doc comment names
the function it embeds.  Theorems about the frozen claim list follow the
definitions.
-/

namespace Portcache

/-! ## Bytes, UTF-8 and hex encoding

Bytes are modelled as `Nat` values below 256.  `utf8` mirrors the byte
sequence Rust's `String::as_bytes` exposes (Rust strings are UTF-8).
`hexEncode` mirrors `hex::encode` from the `hex` crate: lowercase, two
characters per byte. -/

/-- UTF-8 encoding of one unicode scalar value, as a list of bytes. -/
def utf8Char (c : Char) : List Nat :=
  let n := c.toNat
  if n < 0x80 then [n]
  else if n < 0x800 then [0xC0 + n / 64, 0x80 + n % 64]
  else if n < 0x10000 then [0xE0 + n / 4096, 0x80 + (n / 64) % 64, 0x80 + n % 64]
  else [0xF0 + n / 262144, 0x80 + (n / 4096) % 64, 0x80 + (n / 64) % 64, 0x80 + n % 64]

/-- The UTF-8 bytes of a string (Rust `str::as_bytes`). -/
def utf8 (s : String) : List Nat :=
  (s.toList.map utf8Char).flatten

/-- The sixteen lowercase hex characters — the `hex` crate's lookup
table `b"0123456789abcdef"`. -/
def hexChars : List Char :=
  "0123456789abcdef".toList

/-- Lowercase hex digit for a value below 16 (table lookup, as
`hex::encode` does). -/
def hexDigit (n : Nat) : Char :=
  hexChars.getD (n % 16) '0'

/-- Lowercase hex encoding of a byte list (the `hex` crate's `hex::encode`). -/
def hexEncode (bs : List Nat) : String :=
  String.mk ((bs.map (fun b => [hexDigit (b / 16 % 16), hexDigit (b % 16)])).flatten)

/-! ## BLAKE2b-512 (RFC 7693)

`utils.rs` computes the digest directory with the `blake2` crate's
`Blake2b512`.  The algorithm is reproduced here executably: 64-bit words
are `Nat` values reduced mod `2^64`. -/

/-- 2^64, the word modulus. -/
def M64 : Nat := 18446744073709551616

/-- Addition of 64-bit words. -/
def wadd (a b : Nat) : Nat := (a + b) % M64

/-- Xor of 64-bit words (stays below 2^64 for arguments below 2^64). -/
def wxor (a b : Nat) : Nat := a ^^^ b

/-- Rotate a 64-bit word right by `n`. -/
def rotr64 (x n : Nat) : Nat := (x >>> n) ||| ((x <<< (64 - n)) % M64)

/-- The BLAKE2b initialisation vector (RFC 7693 section 2.6), written in
decimal: these are the SHA-512 initial hash words 6a09e667f3bcc908,
bb67ae8584caa73b, 3c6ef372fe94f82b, a54ff53a5f1d36f1, 510e527fade682d1,
9b05688c2b3e6c1f, 1f83d9abfb41bd6b, 5be0cd19137e2179. -/
def IV : List Nat :=
  [7640891576956012808,
   13503953896175478587,
   4354685564936845355,
   11912009170470909681,
   5840696475078001361,
   11170449401992604703,
   2270897969802886507,
   6620516959819538809]

/-- The message permutation table SIGMA (RFC 7693 section 2.7). -/
def SIGMA : List (List Nat) :=
  [[0, 1, 2, 3, 4, 5, 6, 7, 8, 9, 10, 11, 12, 13, 14, 15],
   [14, 10, 4, 8, 9, 15, 13, 6, 1, 12, 0, 2, 11, 7, 5, 3],
   [11, 8, 12, 0, 5, 2, 15, 13, 10, 14, 3, 6, 7, 1, 9, 4],
   [7, 9, 3, 1, 13, 12, 11, 14, 2, 6, 5, 10, 4, 0, 15, 8],
   [9, 0, 5, 7, 2, 4, 10, 15, 14, 1, 11, 12, 6, 8, 3, 13],
   [2, 12, 6, 10, 0, 11, 8, 3, 4, 13, 7, 5, 15, 14, 1, 9],
   [12, 5, 1, 15, 14, 13, 4, 10, 0, 7, 6, 3, 9, 2, 8, 11],
   [13, 11, 7, 14, 12, 1, 3, 9, 5, 0, 15, 4, 8, 6, 2, 10],
   [6, 15, 14, 9, 11, 3, 0, 8, 12, 2, 13, 7, 1, 4, 10, 5],
   [10, 2, 8, 4, 7, 6, 1, 5, 15, 11, 9, 14, 3, 12, 13, 0]]

/-- The G mixing function on the 16-word work vector (RFC 7693 section 3.1). -/
def gmix (v : List Nat) (a b c d x y : Nat) : List Nat :=
  let va := wadd (wadd (v.getD a 0) (v.getD b 0)) x
  let vd := rotr64 (wxor (v.getD d 0) va) 32
  let vc := wadd (v.getD c 0) vd
  let vb := rotr64 (wxor (v.getD b 0) vc) 24
  let va2 := wadd (wadd va vb) y
  let vd2 := rotr64 (wxor vd va2) 16
  let vc2 := wadd vc vd2
  let vb2 := rotr64 (wxor vb vc2) 63
  (((v.set a va2).set b vb2).set c vc2).set d vd2

/-- Little-endian word from a byte list. -/
def wordOfBytesLE : List Nat → Nat
  | [] => 0
  | b :: rest => b + 256 * wordOfBytesLE rest

/-- The 16 message words of one 128-byte block, little-endian. -/
def msgWords (block : List Nat) : List Nat :=
  (List.range 16).map (fun i => wordOfBytesLE ((block.drop (8 * i)).take 8))

/-- One round of the compression function: eight G applications. -/
def blakeRound (m : List Nat) (v : List Nat) (r : Nat) : List Nat :=
  let s := SIGMA.getD (r % 10) []
  let mi := fun k => m.getD (s.getD k 0) 0
  let v1 := gmix v 0 4 8 12 (mi 0) (mi 1)
  let v2 := gmix v1 1 5 9 13 (mi 2) (mi 3)
  let v3 := gmix v2 2 6 10 14 (mi 4) (mi 5)
  let v4 := gmix v3 3 7 11 15 (mi 6) (mi 7)
  let v5 := gmix v4 0 5 10 15 (mi 8) (mi 9)
  let v6 := gmix v5 1 6 11 12 (mi 10) (mi 11)
  let v7 := gmix v6 2 7 8 13 (mi 12) (mi 13)
  gmix v7 3 4 9 14 (mi 14) (mi 15)

/-- The compression function F (RFC 7693 section 3.2): `h` is the 8-word
state, `block` a padded 128-byte block, `t` the byte offset counter and
`last` the final-block flag.  BLAKE2b uses 12 rounds. -/
def compress (h : List Nat) (block : List Nat) (t : Nat) (last : Bool) : List Nat :=
  let m := msgWords block
  let v0 := h ++ IV
  let v1 := v0.set 12 (wxor (v0.getD 12 0) (t % M64))
  let v2 := v1.set 13 (wxor (v1.getD 13 0) (t / M64 % M64))
  let v3 := if last then v2.set 14 (wxor (v2.getD 14 0) (M64 - 1)) else v2
  let vf := (List.range 12).foldl (blakeRound m) v3
  (List.range 8).map (fun i => wxor (h.getD i 0) (wxor (vf.getD i 0) (vf.getD (i + 8) 0)))

/-- Zero-pad a block to 128 bytes. -/
def padBlock (b : List Nat) : List Nat :=
  b ++ List.replicate (128 - b.length) 0

/-- Fuel-driven worker for `blocks128` (structural recursion on the fuel
so that the kernel can evaluate it; `blocks128` supplies enough fuel). -/
def blocks128Go (fuel : Nat) (l : List Nat) : List (List Nat) :=
  match fuel with
  | 0 => [padBlock l]
  | fuel + 1 =>
    if l.length ≤ 128 then [padBlock l]
    else padBlock (l.take 128) :: blocks128Go fuel (l.drop 128)

/-- Split a message into padded 128-byte blocks; the empty message yields
one all-zero block (RFC 7693 section 3.3). -/
def blocks128 (l : List Nat) : List (List Nat) :=
  blocks128Go l.length l

/-- Sequential compression: every block but the last is compressed with the
cumulative byte count, the last with the total length and the final flag. -/
def compressBlocks (h : List Nat) (bs : List (List Nat)) (processed ll : Nat) : List Nat :=
  match bs with
  | [] => h
  | [b] => compress h b ll true
  | b :: rest => compressBlocks (compress h b (processed + 128) false) rest (processed + 128) ll

/-- The little-endian bytes of a 64-bit word. -/
def wordBytesLE (w : Nat) : List Nat :=
  [w % 256, w >>> 8 % 256, w >>> 16 % 256, w >>> 24 % 256,
   w >>> 32 % 256, w >>> 40 % 256, w >>> 48 % 256, w >>> 56 % 256]

/-- BLAKE2b-512 of a byte sequence (unkeyed, 64-byte digest): parameter
word `0x01010040` xored into `IV[0]`. -/
def blake2b512 (msg : List Nat) : List Nat :=
  let h0 := IV.set 0 (wxor (IV.getD 0 0) 0x01010040)
  let hf := compressBlocks h0 (blocks128 msg) 0 msg.length
  ((hf.take 8).map wordBytesLE).flatten

end Portcache

namespace Portcache.Utils

/-- Embeds `utils.rs::filename_hash_dir_blake2b`: hash the file name with
BLAKE2b-512 and hex-encode the first byte of the digest
(`hex::encode(&res[..1])`).  The Rust function returns `Result` but has no
failure path, so the embedding always returns `.ok`. -/
def filename_hash_dir_blake2b (name : String) : Except String String :=
  .ok (hexEncode ((blake2b512 (utf8 name)).take 1))

/-- The digest directory of a file name: the value
`filename_hash_dir_blake2b` wraps in `.ok`. -/
def digest_dir (name : String) : String :=
  hexEncode ((blake2b512 (utf8 name)).take 1)

end Portcache.Utils

namespace Portcache.Frontend

/-- Outcome of the `distfiles` route as the client observes it:
400, 404, or a 200 streaming the blob. -/
inductive Response
  | badRequest
  | notFound
  | okStream
deriving DecidableEq

/-- A byte is hex-decodable for the `hex` crate when it is an ASCII digit
or letter `a`-`f` / `A`-`F`. -/
def isHexByte (b : Nat) : Bool :=
  (48 ≤ b && b ≤ 57) || (97 ≤ b && b ≤ 102) || (65 ≤ b && b ≤ 70)

/-- `hex::decode` succeeds exactly on an even number of hex bytes. -/
def hexDecodable (bs : List Nat) : Bool :=
  bs.length % 2 == 0 && bs.all isHexByte

/-- Embeds `frontend.rs::distfiles`: reject a digest whose byte length is
not 2, a digest `hex::decode` refuses, and a digest containing `/`; then
delegate to `BlobStorage::request`, whose success is abstracted by
`requestOk` (200 streaming on ok, 404 on err).  The route never compares
`digest` with the digest directory of `file`. -/
def distfiles (digest file : String) (requestOk : Bool) : Response :=
  let db := utf8 digest
  if db.length ≠ 2 then .badRequest
  else if ¬ hexDecodable db then .badRequest
  else if db.any (fun b => b == 47) then .badRequest
  else if requestOk then .okStream else .notFound

/-- The route of the amended claim, written from the spec side for
comparison: 400 exactly when the digest is not two hex bytes, and the
request outcome decides between 200 and 404. -/
def distfilesAmendedSpec (digest : String) (requestOk : Bool) : Response :=
  let db := utf8 digest
  if db.length = 2 ∧ db.all isHexByte then
    (if requestOk then .okStream else .notFound)
  else .badRequest

end Portcache.Frontend

namespace Portcache.RepoDB

/-- A row of the `manifest` table as `repo_db.rs::new` creates it:
`file TEXT PRIMARY KEY`, `origin TEXT`, `size INTEGER`, nullable `blake2b`
and `sha512` text columns (`Option String`, `none` = SQL NULL). -/
structure ManifestRow where
  file : String
  origin : String
  size : Nat
  blake2b : Option String
  sha512 : Option String
deriving DecidableEq

/-- The two tables of the SQLite database: `manifest` and
`src_uri(uri TEXT PRIMARY KEY, file TEXT REFERENCES manifest(file))`,
each as a list of rows in insertion order. -/
structure DB where
  manifest : List ManifestRow
  src_uri : List (String × String)
deriving DecidableEq

/-- SQLite errors surfaced through rusqlite that the embedded operations
can produce: a UNIQUE/PRIMARY KEY conflict or a FOREIGN KEY violation. -/
inductive SqlErr
  | primaryKeyConflict
  | foreignKeyViolation
deriving DecidableEq

/-- The manifest entry as `manifest_walker.rs` produces it (checksums are
optional). -/
structure ManifestEntry where
  origin : String
  file : String
  size : Nat
  blake2b : Option String
  sha512 : Option String
deriving DecidableEq

/-- Embeds `repo_db.rs::insert_manifest_entry`: a plain
`INSERT INTO manifest (file, origin, size, blake2b, sha512) VALUES (...)`
binding `entry.blake2b.unwrap_or(String::from("NULL"))` (and likewise for
sha512), so an absent checksum is bound as the literal text `"NULL"`, and
a duplicate `file` hits the PRIMARY KEY constraint and errors. -/
def insert_manifest_entry (db : DB) (entry : ManifestEntry) : Except SqlErr DB :=
  if db.manifest.any (fun r => r.file == entry.file) then
    .error .primaryKeyConflict
  else
    .ok { db with manifest := db.manifest ++
      [{ file := entry.file, origin := entry.origin, size := entry.size,
         blake2b := some (entry.blake2b.getD "NULL"),
         sha512 := some (entry.sha512.getD "NULL") }] }

/-- Embeds `repo_db.rs::insert_src_uri`: a plain
`INSERT INTO src_uri (uri, file) VALUES (?1, ?2)` with `uri` the primary
key and `file` a foreign key into `manifest` (foreign keys enabled by the
constructor's pragma): a duplicate `uri` errors, a `file` absent from
`manifest` errors, otherwise the pair is appended. -/
def insert_src_uri (db : DB) (file uri : String) : Except SqlErr DB :=
  if db.src_uri.any (fun p => p.1 == uri) then
    .error .primaryKeyConflict
  else if ¬ db.manifest.any (fun r => r.file == file) then
    .error .foreignKeyViolation
  else
    .ok { db with src_uri := db.src_uri ++ [(uri, file)] }

/-- Embeds `repo_db.rs::get_src_uri`:
`SELECT uri FROM src_uri WHERE file = ?1`, rows in table order. -/
def get_src_uri (db : DB) (file : String) : Except SqlErr (List String) :=
  .ok ((db.src_uri.filter (fun p => p.2 == file)).map (fun p => p.1))

end Portcache.RepoDB

namespace Portcache.Fetcher

/-- Errors `fetcher.rs::store` can return: the explicit
`"Download failed"` error of the chunk-error branch, or an io error a `?`
propagates (create_dir, File::create, write_all, flush, remove_file). -/
inductive StoreErr
  | downloadFailed
  | ioErr
deriving DecidableEq

/-- The filesystem and io outcomes one `store` call can observe.
`writeOk i` is whether the `write_all` of the i-th chunk succeeds;
`flushOnErrOk` / `finalFlushOk` are the two `flush` call sites;
`removeOk` is the `remove_file` of the chunk-error branch. -/
structure StoreEnv where
  preExists : Bool
  dirExists : Bool
  createDirOk : Bool
  createOk : Bool
  writeOk : Nat → Bool
  flushOnErrOk : Bool
  removeOk : Bool
  finalFlushOk : Bool

/-- The chunk loop of `store`: each stream item is `true` (an ok chunk)
or `false` (a chunk error).  Returns the result together with whether a
file is present at the blob path afterwards.  Mirrors the source: on a
chunk error it flushes, removes the file and returns the
`"Download failed"` error, but a failing `write_all`, `flush` or
`remove_file` is propagated by `?` with the partial file left in place
(the file exists from `File::create` on). -/
def storeLoop (env : StoreEnv) : List Bool → Nat → Except StoreErr Unit × Bool
  | [], _ =>
    if env.finalFlushOk then (.ok (), true) else (.error .ioErr, true)
  | chunk :: rest, i =>
    if chunk then
      if env.writeOk i then storeLoop env rest (i + 1)
      else (.error .ioErr, true)
    else
      if env.flushOnErrOk then
        if env.removeOk then (.error .downloadFailed, false)
        else (.error .ioErr, true)
      else (.error .ioErr, true)

/-- Embeds `fetcher.rs::store`: return ok at once when the blob path is
already a file; create the digest directory when missing; create the
file; then run the chunk loop. -/
def store (env : StoreEnv) (chunks : List Bool) : Except StoreErr Unit × Bool :=
  if env.preExists then (.ok (), true)
  else if !env.dirExists && !env.createDirOk then (.error .ioErr, false)
  else if !env.createOk then (.error .ioErr, false)
  else storeLoop env chunks 0

/-- Outcome of one mirror iteration of `fetch_mirror`, or of one URI of
`fetch_src_uri`: the layout check failed, the GET failed (request error
or non-2xx status), `store` failed, or `store` returned ok. -/
inductive AttemptOutcome
  | layoutErr
  | httpErr
  | storeErr
  | storeOk
deriving DecidableEq

/-- The mirror loop of `fetcher.rs::fetch_mirror`: up to `n` round-robin
iterations (`n = mirrors.len()`), each skipping to the next mirror on a
layout error, a GET error or a `store` error, and returning ok on the
first iteration whose `store` returns ok; err when all `n` fail.  The
second component records whether some `store` call returned ok. -/
def fetch_mirror_loop (att : Nat → AttemptOutcome) : Nat → Nat → Except Unit Unit × Bool
  | 0, _ => (.error (), false)
  | k + 1, i =>
    match att i with
    | .storeOk => (.ok (), true)
    | _ => fetch_mirror_loop att k (i + 1)

/-- Embeds `fetcher.rs::fetch_mirror` for a fetcher with `n` mirrors. -/
def fetch_mirror (n : Nat) (att : Nat → AttemptOutcome) : Except Unit Unit × Bool :=
  fetch_mirror_loop att n 0

/-- The URI loop of `fetcher.rs::fetch_src_uri`: a GET error skips to the
next URI, a `store` error is propagated by `?` (aborting the loop), and a
`store` ok does NOT return — the loop continues with the remaining URIs.
An exhausted (in particular an empty) list returns ok. -/
def fetch_src_uri_loop (att : Nat → AttemptOutcome) : List String → Nat → Bool →
    Except Unit Unit × Bool
  | [], _, placed => (.ok (), placed)
  | _ :: rest, i, placed =>
    match att i with
    | .storeErr => (.error (), placed)
    | .storeOk => fetch_src_uri_loop att rest (i + 1) true
    | _ => fetch_src_uri_loop att rest (i + 1) placed

/-- Embeds `fetcher.rs::fetch_src_uri`: ask the repo database for the
URIs of the file (a database error is returned as err), then run the URI
loop. -/
def fetch_src_uri (uris : Except Unit (List String)) (att : Nat → AttemptOutcome) :
    Except Unit Unit × Bool :=
  match uris with
  | .error _ => (.error (), false)
  | .ok us => fetch_src_uri_loop att us 0 false

/-- Embeds `fetcher.rs::fetch`: try the mirror loop, then the SRC_URI
fallback, err only when both report err.  `n` is the mirror count,
`matt`/`uatt` the two loops' attempt outcomes, `uris` the database
answer.  The Bool records whether any `store` call returned ok (whether
some source produced a file at the blob path). -/
def fetch (n : Nat) (matt : Nat → AttemptOutcome) (uris : Except Unit (List String))
    (uatt : Nat → AttemptOutcome) : Except Unit Unit × Bool :=
  match fetch_mirror n matt with
  | (.ok _, placed) => (.ok (), placed)
  | (.error _, placedM) =>
    match fetch_src_uri uris uatt with
    | (.ok _, placedU) => (.ok (), placedM || placedU)
    | (.error _, placedU) => (.error (), placedM || placedU)

end Portcache.Fetcher

namespace Portcache.ManifestWalker

/-- The numeric value of a decimal digit list. -/
def natOfDigits (ds : List Char) : Nat :=
  ds.foldl (fun acc c => 10 * acc + (c.toNat - 48)) 0

/-- Strip the optional leading `+` Rust's integer parsing accepts. -/
def stripPlus : List Char → List Char
  | '+' :: rest => rest
  | cs => cs

/-- The digit phase of Rust `str::parse::<u32>`: at least one ASCII
digit, all digits, and a value below `2^32`; anything else (including an
overflowing numeral) is an error. -/
def parseU32Digits (ds : List Char) : Except Unit Nat :=
  if ds.isEmpty then .error ()
  else if ds.all Char.isDigit then
    if natOfDigits ds < 4294967296 then .ok (natOfDigits ds) else .error ()
  else .error ()

/-- Embeds Rust `str::parse::<u32>`. -/
def parseU32 (s : String) : Except Unit Nat :=
  parseU32Digits (stripPlus s.toList)

/-- A parsed Manifest entry (`manifest_walker.rs::ManifestEntry`):
mandatory file name and `u32` size, optional checksums. -/
structure Entry where
  origin : String
  file : String
  size : Nat
  blake2b : Option String
  sha512 : Option String
deriving DecidableEq

/-- The keyword loop of `ManifestEntry::parse` over the
whitespace-separated tokens: `DIST` consumes a file name and a size
(erring when either is missing or the size does not parse as `u32`),
`BLAKE2B` and `SHA512` consume one checksum each, any other token is
ignored. -/
def parseTokens (origin : String) : List String → Option String → Option Nat →
    Option String → Option String → Except String Entry
  | [], file, size, b2, s5 =>
    match file with
    | none => .error "no file name"
    | some f =>
      match size with
      | none => .error "no file size"
      | some sz => .ok { origin := origin, file := f, size := sz, blake2b := b2, sha512 := s5 }
  | "DIST" :: rest, _, _, b2, s5 =>
    match rest with
    | [] => .error "expected file name after DIST"
    | name :: rest2 =>
      match rest2 with
      | [] => .error "expected file size after DIST"
      | sz :: rest3 =>
        match parseU32 sz with
        | .error _ => .error "size does not parse as u32"
        | .ok n => parseTokens origin rest3 (some name) (some n) b2 s5
  | "BLAKE2B" :: rest, file, size, _, s5 =>
    match rest with
    | [] => .error "expected blake2b checksum"
    | sum :: rest2 => parseTokens origin rest2 file size (some sum) s5
  | "SHA512" :: rest, file, size, b2, _ =>
    match rest with
    | [] => .error "expected sha512 checksum"
    | sum :: rest2 => parseTokens origin rest2 file size b2 (some sum)
  | _ :: rest, file, size, b2, s5 => parseTokens origin rest file size b2 s5

/-- Character-level worker for `splitWhitespace`: `acc` holds the
current word reversed. -/
def splitWsAux : List Char → List Char → List String
  | [], acc => if acc.isEmpty then [] else [String.mk acc.reverse]
  | c :: rest, acc =>
    if c.isWhitespace then
      if acc.isEmpty then splitWsAux rest []
      else String.mk acc.reverse :: splitWsAux rest []
    else splitWsAux rest (c :: acc)

/-- Rust `str::split_whitespace`: maximal runs of non-whitespace. -/
def splitWhitespace (line : String) : List String :=
  splitWsAux line.toList []

/-- Embeds `manifest_walker.rs::ManifestEntry::parse`. -/
def parse (origin : String) (line : String) : Except String Entry :=
  parseTokens origin (splitWhitespace line) none none none none

/-- The per-line loop of `ManifestWalker::entries` for one Manifest
file: a line whose parse errs is skipped (the loop continues with the
next line), a line whose parse succeeds is yielded. -/
def entriesOfLines (origin : String) : List String → List Entry
  | [] => []
  | line :: rest =>
    match parse origin line with
    | .error _ => entriesOfLines origin rest
    | .ok e => e :: entriesOfLines origin rest

end Portcache.ManifestWalker

namespace Portcache.RepoSyncer

/-- The per-repo outcome of one `sync` iteration, one constructor per
`continue`-on-error site of `repo_syncer.rs::sync` plus success. -/
inductive RepoOutcome
  | openErr
  | noOrigin
  | connectErr
  | branchErr
  | fetchErr
  | findRefErr
  | peelErr
  | resetErr
  | synced
deriving DecidableEq

/-- The loop of `repo_syncer.rs::sync` over the repo directories: every
entry is visited (each error site pushes the repo onto `failed` and
continues), and the result is ok exactly when `failed` stays empty.
Returns the list of repos visited and the accumulated failures. -/
def syncLoop : List (String × RepoOutcome) → List String × List String
  | [] => ([], [])
  | (name, out) :: rest =>
    let (visited, failed) := syncLoop rest
    (name :: visited, if out = .synced then failed else name :: failed)

/-- Embeds `repo_syncer.rs::sync`: visit every repo, accumulate failures,
err when any repo failed. -/
def sync (repos : List (String × RepoOutcome)) : List String × Except String Unit :=
  let (visited, failed) := syncLoop repos
  (visited, if failed.isEmpty then .ok () else .error "failed repos")

/-- What one tick of `repo_syncer.rs::start` runs. -/
structure TickTrace where
  ranSync : Bool
  ranParseManifests : Bool
  ranParseEbuilds : Bool
deriving DecidableEq

/-- Embeds the tick body of `repo_syncer.rs::start`: `sync` always runs;
a sync error `continue`s the loop (skipping the rest of the tick);
`parse_manifests` runs next, its error likewise skipping `parse_ebuilds`. -/
def tick (syncResult : Except String Unit) (pmResult : Except String (List String)) :
    TickTrace :=
  match syncResult with
  | .error _ => { ranSync := true, ranParseManifests := false, ranParseEbuilds := false }
  | .ok _ =>
    match pmResult with
    | .error _ => { ranSync := true, ranParseManifests := true, ranParseEbuilds := false }
    | .ok _ => { ranSync := true, ranParseManifests := true, ranParseEbuilds := true }

/-- Rust `Path::extension` on a file name: the part after the last dot,
except that a name with no dot, or whose only dot is the leading
character, has no extension. -/
def rustExtension (name : String) : Option String :=
  let cs := name.toList
  let stemAndExt := fun (l : List Char) =>
    match (l.reverse.takeWhile (fun c => c ≠ '.')), (l.reverse.dropWhile (fun c => c ≠ '.')) with
    | ext, '.' :: stem => if stem.isEmpty then none else some (String.mk ext.reverse)
    | _, _ => none
  stemAndExt cs

/-- One manifest directory as `parse_ebuilds` sees it: the sibling file
names of the Manifest, and the parser outcome for each ebuild (the
`(filename, uri)` pairs `Ebuild::parse` would return). -/
structure ManifestDir where
  siblings : List String
  parseResult : String → Except String (List (String × String))

/-- The inner ebuild loop of `repo_syncer.rs::parse_ebuilds`: each ebuild
is parsed; a parse error is propagated by `?`; a parse success binds the
pairs to `parsed` and does nothing with them — the insertion into
`src_uri` is commented out in the source — so the database is threaded
through unchanged. -/
def parseEbuildsList (db : RepoDB.DB) (parseResult : String → Except String (List (String × String))) :
    List String → Except String RepoDB.DB
  | [] => .ok db
  | e :: rest =>
    match parseResult e with
    | .error msg => .error msg
    | .ok _parsed => parseEbuildsList db parseResult rest

/-- The per-manifest body of `parse_ebuilds`: filter the Manifest's
sibling files to extension `ebuild` and run the inner loop. -/
def parseEbuildsDir (db : RepoDB.DB) (md : ManifestDir) : Except String RepoDB.DB :=
  parseEbuildsList db md.parseResult (md.siblings.filter (fun s => rustExtension s == some "ebuild"))

/-- Embeds `repo_syncer.rs::parse_ebuilds` over the changed manifests. -/
def parse_ebuilds (db : RepoDB.DB) : List ManifestDir → Except String RepoDB.DB
  | [] => .ok db
  | md :: rest =>
    match parseEbuildsDir db md with
    | .error msg => .error msg
    | .ok db2 => parse_ebuilds db2 rest

end Portcache.RepoSyncer

namespace Portcache.BlobStorage

/-!
## The fetch-coalescing state machine of `blob_storage.rs::request`

Each task runs `request` for one fixed file name.  The phases are the
program points between suspension points; every map-lock critical
section is one atomic step.  `r` records whether the task still holds a
clone of the job's `Arc<Notify>` (the waiter path clones it and keeps it
until return; a fresh leader holds none), which is what
`Arc::strong_count` observes in the failure branch.

  * `start`        — before the first `fetch_jobs` lock (line 82).
  * `pendingWait`  — saw a running job, cloned its notifier, not yet in
                     `notified()` (lines 86, 104).
  * `waiting`      — parked in `active_job.notified().await` (line 106).
  * `woken`        — returned from `notified()`, about to test
                     `path.is_file()` (line 107).
  * `fetching r`   — inside `fetcher.fetch` (line 115).
  * `cleanup r`    — fetch returned err, about to unlink a leftover file
                     (lines 117-121).
  * `errLock r`    — about to run the failure critical section
                     (lines 123-136).
  * `afterFetch r` — about to run the unconditional remove-and-notify-all
                     critical section (line 140); reached on fetch ok, and
                     on fetch err when the failure section did not return.
  * `finalCheck r` — about to run the final `path.is_file()` (line 146).
  * `doneOk` / `doneErr` — returned.

The `Notify` is modelled with tokio's semantics: `notify_one` wakes one
parked waiter or, with none parked, stores a permit that the next
`notified()` consumes; `notify_waiters` wakes all parked waiters and
stores nothing.  The file at the blob path is `file : Bool`; the map
entry for the name is `job : Bool`.
-/

/-- Program points of one `request` task. -/
inductive Phase
  | start
  | pendingWait
  | waiting
  | woken
  | fetching (r : Bool)
  | cleanup (r : Bool)
  | errLock (r : Bool)
  | afterFetch (r : Bool)
  | finalCheck (r : Bool)
  | doneOk
  | doneErr
deriving DecidableEq

/-- Whether a task in this phase holds a clone of the job's `Arc`. -/
def holdsRef : Phase → Bool
  | .pendingWait => true
  | .waiting => true
  | .woken => true
  | .fetching r => r
  | .cleanup r => r
  | .errLock r => r
  | .afterFetch r => r
  | .finalCheck r => r
  | _ => false

/-- The state of the system for one file name. -/
structure Sys where
  tasks : List Phase
  job : Bool
  permit : Bool
  file : Bool
deriving DecidableEq

/-- The number of `Arc` clones besides the map's own reference:
`Arc::strong_count(notify) > 1` observes this being positive. -/
def refCount (ts : List Phase) : Nat :=
  ts.countP holdsRef

/-- `notify_waiters`: every parked waiter wakes. -/
def wakeAll (p : Phase) : Phase :=
  if p = .waiting then .woken else p

/-- The number of tasks currently inside `fetcher.fetch`. -/
def fetchingCount (ts : List Phase) : Nat :=
  ts.countP (fun p => match p with | .fetching _ => true | _ => false)

/-- One interleaving step of the system.  Each constructor is one atomic
step of `blob_storage.rs::request`; the comments give the lines. -/
inductive Step : Sys → Sys → Prop
  /-- Lines 82-100, no job, file present: cache hit, return the path. -/
  | enterHit (s : Sys) (i : Nat) (ht : s.tasks.get? i = some .start)
      (hj : s.job = false) (hf : s.file = true) :
      Step s { s with tasks := s.tasks.set i .doneOk }
  /-- Lines 82-100, no job, file absent: insert a fresh job (fresh
  `Notify`, so no permit) and proceed as leader into `fetcher.fetch`. -/
  | enterLead (s : Sys) (i : Nat) (ht : s.tasks.get? i = some .start)
      (hj : s.job = false) (hf : s.file = false) :
      Step s { s with tasks := s.tasks.set i (.fetching false), job := true, permit := false }
  /-- Lines 82-100, job present: clone the notifier and leave the lock. -/
  | enterWait (s : Sys) (i : Nat) (ht : s.tasks.get? i = some .start)
      (hj : s.job = true) :
      Step s { s with tasks := s.tasks.set i .pendingWait }
  /-- Line 106, a stored permit: `notified()` returns at once. -/
  | notifiedPermit (s : Sys) (i : Nat) (ht : s.tasks.get? i = some .pendingWait)
      (hp : s.permit = true) :
      Step s { s with tasks := s.tasks.set i .woken, permit := false }
  /-- Line 106, no permit: park. -/
  | notifiedPark (s : Sys) (i : Nat) (ht : s.tasks.get? i = some .pendingWait)
      (hp : s.permit = false) :
      Step s { s with tasks := s.tasks.set i .waiting }
  /-- Lines 107-111, file present after the wake: return the path. -/
  | wokenHit (s : Sys) (i : Nat) (ht : s.tasks.get? i = some .woken)
      (hf : s.file = true) :
      Step s { s with tasks := s.tasks.set i .doneOk }
  /-- Lines 107-115, file absent after the wake: fall through to
  `fetcher.fetch` (the woken waiter retakes leadership). -/
  | wokenFetch (s : Sys) (i : Nat) (ht : s.tasks.get? i = some .woken)
      (hf : s.file = false) :
      Step s { s with tasks := s.tasks.set i (.fetching true) }
  /-- Line 115, `fetcher.fetch` returns ok having stored the blob. -/
  | fetchOkFile (s : Sys) (i : Nat) (r : Bool) (ht : s.tasks.get? i = some (.fetching r)) :
      Step s { s with tasks := s.tasks.set i (.afterFetch r), file := true }
  /-- Line 115, `fetcher.fetch` returns ok without a file at the blob
  path (`fetch_src_uri` returns ok on an exhausted or empty URI list). -/
  | fetchOkNoFile (s : Sys) (i : Nat) (r : Bool) (ht : s.tasks.get? i = some (.fetching r)) :
      Step s { s with tasks := s.tasks.set i (.afterFetch r) }
  /-- Line 115, `fetcher.fetch` returns err. -/
  | fetchErr (s : Sys) (i : Nat) (r : Bool) (ht : s.tasks.get? i = some (.fetching r)) :
      Step s { s with tasks := s.tasks.set i (.cleanup r) }
  /-- Lines 117-121: unlink whatever is at the path. -/
  | cleanupRun (s : Sys) (i : Nat) (r : Bool) (ht : s.tasks.get? i = some (.cleanup r)) :
      Step s { s with tasks := s.tasks.set i (.errLock r), file := false }
  /-- Lines 123-136, job present, `strong_count > 1`, a parked waiter
  `j`: `notify_one` wakes it; the entry stays; return err. -/
  | errElect (s : Sys) (i j : Nat) (r : Bool) (ht : s.tasks.get? i = some (.errLock r))
      (hj : s.job = true) (hc : 1 ≤ refCount s.tasks)
      (hw : s.tasks.get? j = some .waiting) :
      Step s { s with tasks := (s.tasks.set j .woken).set i .doneErr }
  /-- Lines 123-136, job present, `strong_count > 1`, nobody parked:
  `notify_one` stores a permit; the entry stays; return err. -/
  | errPermit (s : Sys) (i : Nat) (r : Bool) (ht : s.tasks.get? i = some (.errLock r))
      (hj : s.job = true) (hc : 1 ≤ refCount s.tasks)
      (hw : ∀ p ∈ s.tasks, p ≠ .waiting) :
      Step s { s with tasks := s.tasks.set i .doneErr, permit := true }
  /-- Lines 123-136, job present, `strong_count = 1`: remove the entry
  (dropping its `Notify` and permit) and fall through. -/
  | errDrop (s : Sys) (i : Nat) (r : Bool) (ht : s.tasks.get? i = some (.errLock r))
      (hj : s.job = true) (hc : refCount s.tasks = 0) :
      Step s { s with tasks := s.tasks.set i (.afterFetch r), job := false, permit := false }
  /-- Lines 123-136, no entry for the name: fall through. -/
  | errAbsent (s : Sys) (i : Nat) (r : Bool) (ht : s.tasks.get? i = some (.errLock r))
      (hj : s.job = false) :
      Step s { s with tasks := s.tasks.set i (.afterFetch r) }
  /-- Lines 140-143, entry present: remove it (dropping its `Notify` and
  permit) and `notify_waiters` — every parked waiter wakes. -/
  | afterRemove (s : Sys) (i : Nat) (r : Bool) (ht : s.tasks.get? i = some (.afterFetch r))
      (hj : s.job = true) :
      Step s { s with tasks := (s.tasks.map wakeAll).set i (.finalCheck r), job := false, permit := false }
  /-- Lines 140-143, no entry: nothing to remove. -/
  | afterNone (s : Sys) (i : Nat) (r : Bool) (ht : s.tasks.get? i = some (.afterFetch r))
      (hj : s.job = false) :
      Step s { s with tasks := s.tasks.set i (.finalCheck r) }
  /-- Lines 146-150, file present: return the path. -/
  | finalOk (s : Sys) (i : Nat) (r : Bool) (ht : s.tasks.get? i = some (.finalCheck r))
      (hf : s.file = true) :
      Step s { s with tasks := s.tasks.set i .doneOk }
  /-- Lines 146-150, file absent: return err. -/
  | finalErr (s : Sys) (i : Nat) (r : Bool) (ht : s.tasks.get? i = some (.finalCheck r))
      (hf : s.file = false) :
      Step s { s with tasks := s.tasks.set i .doneErr }

/-- Reachability under interleaving. -/
def Reachable : Sys → Sys → Prop :=
  Relation.ReflTransGen Step

/-- The initial state for `n` concurrent requesters of one absent file. -/
def init (n : Nat) : Sys :=
  { tasks := List.replicate n .start, job := false, permit := false, file := false }

end Portcache.BlobStorage

/-! ## Theorems -/

namespace Portcache

theorem hexDigit_mem_hexChars (n : Nat) : hexDigit n ∈ hexChars := by
  unfold hexDigit
  have h : n % 16 < hexChars.length := Nat.mod_lt n (by decide)
  rw [List.getD_eq_getElem hexChars '0' h]
  exact List.getElem_mem h

theorem compress_length (h block : List Nat) (t : Nat) (last : Bool) :
    (compress h block t last).length = 8 := by
  simp only [compress, List.length_map, List.length_range]

theorem compressBlocks_length (bs : List (List Nat)) :
    ∀ h p ll, h.length = 8 → (compressBlocks h bs p ll).length = 8 := by
  induction bs with
  | nil => intro h p ll hh; exact hh
  | cons b rest ih =>
    intro h p ll hh
    cases rest with
    | nil => exact compress_length h b ll true
    | cons r rs =>
      exact ih (compress h b (p + 128) false) (p + 128) ll
        (compress_length h b (p + 128) false)

theorem outBytes_take_one (hf : List Nat) (h : hf.length = 8) :
    ∃ b, (((hf.take 8).map wordBytesLE).flatten).take 1 = [b] ∧ b < 256 := by
  cases hf with
  | nil => simp at h
  | cons a t => exact ⟨a % 256, rfl, Nat.mod_lt _ (by norm_num)⟩

theorem blake2b512_take_one (msg : List Nat) :
    ∃ b, (blake2b512 msg).take 1 = [b] ∧ b < 256 :=
  outBytes_take_one
    (compressBlocks (IV.set 0 (wxor (IV.getD 0 0) 0x01010040)) (blocks128 msg) 0 msg.length)
    (compressBlocks_length _ _ _ _ (by decide))

set_option maxRecDepth 100000 in
theorem blake2b512_empty_vector :
    hexEncode (blake2b512 (utf8 "")) =
      "786a02f742015903c6c6fd852552d272912f4740e15847618a86e217f71f5419d25e1031afee585313896444934eb04b903a685b1448b755d56f701afe9be2ce" := by
  decide

set_option maxRecDepth 100000 in
theorem blake2b512_abc_vector :
    hexEncode (blake2b512 (utf8 "abc")) =
      "ba80a53f981c4d0d6a2797b69f12f6e94c212f14685ac4b74b12bb6fdbffa2d17d87c5392aab792dc252d5de4533cc9518d38aa8dbf1925ab92386edd4009923" := by
  decide

end Portcache

/-- C8: for every filename, `filename_hash_dir_blake2b` is total (always
`.ok`), returns exactly the hex encoding of the first byte of the
BLAKE2b-512 digest of the name's UTF-8 bytes, and that string is two
lowercase hex characters. -/
theorem C8_digest_dir_total_wellformed (f : String) :
    Portcache.Utils.filename_hash_dir_blake2b f = .ok (Portcache.Utils.digest_dir f) ∧
    Portcache.Utils.digest_dir f =
      Portcache.hexEncode ((Portcache.blake2b512 (Portcache.utf8 f)).take 1) ∧
    (Portcache.Utils.digest_dir f).length = 2 ∧
    ∀ c ∈ (Portcache.Utils.digest_dir f).toList, c ∈ Portcache.hexChars := by
  obtain ⟨b, htake, hb⟩ := Portcache.blake2b512_take_one (Portcache.utf8 f)
  refine ⟨rfl, rfl, ?_, ?_⟩
  · simp [Portcache.Utils.digest_dir, htake, Portcache.hexEncode, String.length]
  · intro c hc
    simp [Portcache.Utils.digest_dir, htake, Portcache.hexEncode, String.toList] at hc
    rcases hc with h | h <;> subst h <;> exact Portcache.hexDigit_mem_hexChars _

set_option maxRecDepth 100000 in
/-- C2 counterexample: the claim says a digest different from
`digest_dir(file)` is rejected with 400 and no fetch is attempted; but
for the file `"a"` (digest directory `"33"`) the well-formed digest
`"aa"` passes the route's checks, the request is consulted, and the
response is 200 or 404 according to its outcome — never 400. -/
theorem C2_counterexample :
    Portcache.Frontend.distfiles "aa" "a" true = .okStream ∧
    Portcache.Frontend.distfiles "aa" "a" false = .notFound ∧
    "aa" ≠ Portcache.Utils.digest_dir "a" := by
  refine ⟨by decide, by decide, by decide⟩

/-- C2 as amended: the route returns 400 exactly when the digest's UTF-8
bytes are not two hex bytes; otherwise — with no comparison against
`digest_dir(file)` — it returns 200 on a successful
`BlobStorage.request` and 404 on a failed one. -/
theorem C2_distfiles_amended (digest file : String) (r : Bool) :
    Portcache.Frontend.distfiles digest file r =
      Portcache.Frontend.distfilesAmendedSpec digest r := by
  unfold Portcache.Frontend.distfiles Portcache.Frontend.distfilesAmendedSpec
  by_cases h2 : (Portcache.utf8 digest).length = 2
  · by_cases hh : (Portcache.utf8 digest).all Portcache.Frontend.isHexByte = true
    · have hc : (Portcache.utf8 digest).any (fun b => b == 47) = false := by
        rw [List.any_eq_false]
        rw [List.all_eq_true] at hh
        intro b hbmem hbeq
        rw [beq_iff_eq] at hbeq
        subst hbeq
        exact absurd (hh 47 hbmem) (by decide)
      have hd : Portcache.Frontend.hexDecodable (Portcache.utf8 digest) = true := by
        unfold Portcache.Frontend.hexDecodable
        rw [h2, hh]
        decide
      simp [h2, hd, hc, hh]
    · have hd : Portcache.Frontend.hexDecodable (Portcache.utf8 digest) = false := by
        unfold Portcache.Frontend.hexDecodable
        simp only [Bool.eq_false_iff] at hh ⊢
        intro hand
        exact hh (Bool.and_elim_right hand)
      simp [h2, hd, hh]
  · simp [h2]

/-- C4: evaluation at the failing input.  With one mirror whose layout
check fails and an empty SRC_URI list from the database, `fetch` returns
ok even though no source produced a file at the blob path (the claim —
and the spec — say it must return err). -/
theorem C4_fetch_ok_without_file :
    Portcache.Fetcher.fetch 1 (fun _ => .layoutErr) (.ok []) (fun _ => .httpErr) =
      (.ok (), false) := rfl

/-- The database and changed-manifest input for C5: one changed Manifest
with one sibling ebuild whose parse yields one `(filename, uri)` pair. -/
def c5ManifestDir : Portcache.RepoSyncer.ManifestDir :=
  { siblings := ["pkg-1.0.ebuild", "Manifest"],
    parseResult := fun _ => .ok [("f.tar.gz", "http://x/f.tar.gz")] }

/-- C5: evaluation at the failing input.  `parse_ebuilds` walks the
changed Manifest's sibling ebuilds and parses them, but inserts nothing:
the `src_uri` table is unchanged (empty) although the parser returned a
pair — the insertion is commented out in the source. -/
theorem C5_parse_ebuilds_inserts_nothing :
    Portcache.RepoSyncer.parse_ebuilds ⟨[], []⟩ [c5ManifestDir] = .ok ⟨[], []⟩ ∧
    (⟨[], []⟩ : Portcache.RepoDB.DB).src_uri = [] := ⟨rfl, rfl⟩

/-- The store environment of C3's counterexample: the blob path is
fresh, the digest directory exists, the file is created, and the
`write_all` of the first chunk fails. -/
def c3WriteFailEnv : Portcache.Fetcher.StoreEnv :=
  { preExists := false, dirExists := true, createDirOk := true, createOk := true,
    writeOk := fun _ => false, flushOnErrOk := true, removeOk := true, finalFlushOk := true }

/-- C3 counterexample: the claim says that on any error during streaming
— chunk error, write error, or flush error — the partial file is
unlinked before the error is returned; but when the `write_all` of a
chunk fails, the `?` operator returns the io error with the
just-created file still in place. -/
theorem C3_counterexample :
    (Portcache.Fetcher.store c3WriteFailEnv [true]).1 = .error .ioErr ∧
    (Portcache.Fetcher.store c3WriteFailEnv [true]).2 = true := ⟨rfl, rfl⟩

theorem storeLoop_downloadFailed_no_file (env : Portcache.Fetcher.StoreEnv) :
    ∀ (chunks : List Bool) (i : Nat),
      (Portcache.Fetcher.storeLoop env chunks i).1 = .error .downloadFailed →
      (Portcache.Fetcher.storeLoop env chunks i).2 = false := by
  intro chunks
  induction chunks with
  | nil =>
    intro i h
    unfold Portcache.Fetcher.storeLoop at h ⊢
    by_cases hf : env.finalFlushOk = true
    · simp [hf] at h
    · simp [Bool.eq_false_iff.mpr hf] at h
  | cons c rest ih =>
    intro i h
    unfold Portcache.Fetcher.storeLoop at h ⊢
    by_cases hc : c = true
    · subst hc
      by_cases hw : env.writeOk i = true
      · simp only [if_true, hw] at h ⊢
        exact ih (i + 1) h
      · simp [Bool.eq_false_iff.mpr hw] at h
    · have hc2 : c = false := Bool.eq_false_iff.mpr hc
      subst hc2
      by_cases hfl : env.flushOnErrOk = true
      · by_cases hr : env.removeOk = true
        · simp [hfl, hr]
        · simp [hfl, Bool.eq_false_iff.mpr hr] at h
      · simp [Bool.eq_false_iff.mpr hfl] at h

/-- C3 as amended: the partial file is unlinked only on the chunk-error
branch (the `"Download failed"` error), and then none remains; a failing
`write_all` or `flush` propagates an io error with the partial file left
in place, to be cleaned up by `BlobStorage::request`'s failure path. -/
theorem C3_store_amended (env : Portcache.Fetcher.StoreEnv) (chunks : List Bool)
    (h : (Portcache.Fetcher.store env chunks).1 = .error .downloadFailed) :
    (Portcache.Fetcher.store env chunks).2 = false := by
  unfold Portcache.Fetcher.store at h ⊢
  cases hpe : env.preExists with
  | true => simp [hpe] at h
  | false =>
  cases hde : env.dirExists with
  | false =>
    cases hcde : env.createDirOk with
    | false => simp [hpe, hde, hcde] at h
    | true =>
      cases hce : env.createOk with
      | false => simp [hpe, hde, hcde, hce] at h
      | true =>
        simp only [hpe, hde, hcde, hce, Bool.not_false, Bool.not_true, Bool.and_false,
          Bool.and_true, if_false, if_true, Bool.false_eq_true, ite_false, ite_true] at h ⊢
        exact storeLoop_downloadFailed_no_file env chunks 0 h
  | true =>
    cases hce : env.createOk with
    | false => simp [hpe, hde, hce] at h
    | true =>
      simp only [hpe, hde, hce, Bool.not_false, Bool.not_true, Bool.false_and, Bool.and_false,
        if_false, if_true, Bool.false_eq_true, ite_false, ite_true] at h ⊢
      exact storeLoop_downloadFailed_no_file env chunks 0 h

/-- The store environment of C3's witness: a stream whose first chunk is
an error, with the flush and the unlink succeeding. -/
def c3ChunkErrEnv : Portcache.Fetcher.StoreEnv :=
  { preExists := false, dirExists := true, createDirOk := true, createOk := true,
    writeOk := fun _ => true, flushOnErrOk := true, removeOk := true, finalFlushOk := true }

/-- C3 witness: the amended theorem applied at a concrete input: a chunk
error with flush and unlink succeeding yields the `"Download failed"`
error and leaves no file. -/
theorem C3_store_amended_witness :
    (Portcache.Fetcher.store c3ChunkErrEnv [false]).1 = .error .downloadFailed ∧
    (Portcache.Fetcher.store c3ChunkErrEnv [false]).2 = false :=
  ⟨rfl, C3_store_amended c3ChunkErrEnv [false] rfl⟩

/-- The database of C6's theorems: one manifest row for `"f.tar.gz"`
whose insert stored the text `"NULL"` in both checksum columns. -/
def c6DB : Portcache.RepoDB.DB :=
  { manifest := [{ file := "f.tar.gz", origin := "/repo/cat/pkg/Manifest", size := 3,
                   blake2b := some "NULL", sha512 := some "NULL" }],
    src_uri := [] }

/-- The manifest entry of C6's theorems: no checksums. -/
def c6Entry : Portcache.RepoDB.ManifestEntry :=
  { origin := "/repo/cat/pkg/Manifest", file := "f.tar.gz", size := 3,
    blake2b := none, sha512 := none }

/-- C6 counterexample: the claim says `insert_manifest_entry` upserts by
file and stores missing checksums as SQL NULL; but the first insert of an
entry with no checksums stores the literal text `"NULL"` (not SQL NULL)
in both columns, and a second insert with the same file returns a
primary-key constraint error instead of replacing the row. -/
theorem C6_counterexample :
    Portcache.RepoDB.insert_manifest_entry ⟨[], []⟩ c6Entry = .ok c6DB ∧
    (c6DB.manifest.map (fun r => r.blake2b) = [some "NULL"] ∧
      c6DB.manifest.map (fun r => r.sha512) = [some "NULL"]) ∧
    Portcache.RepoDB.insert_manifest_entry c6DB c6Entry = .error .primaryKeyConflict := by
  refine ⟨rfl, ⟨rfl, rfl⟩, rfl⟩

/-- C6 as amended: `insert_manifest_entry` is a plain INSERT: whenever a
row with the entry's file already exists, the call returns a primary-key
constraint error and the table is left unchanged (missing checksums of a
successful insert are stored as the literal text `"NULL"`, as the
counterexample shows). -/
theorem C6_insert_manifest_amended (db : Portcache.RepoDB.DB)
    (e : Portcache.RepoDB.ManifestEntry)
    (h : db.manifest.any (fun r => r.file == e.file) = true) :
    Portcache.RepoDB.insert_manifest_entry db e = .error .primaryKeyConflict := by
  unfold Portcache.RepoDB.insert_manifest_entry
  simp [h]

/-- C6 witness: the amended theorem applied at the concrete database
holding a row for the entry's file. -/
theorem C6_insert_manifest_amended_witness :
    Portcache.RepoDB.insert_manifest_entry c6DB c6Entry = .error .primaryKeyConflict :=
  C6_insert_manifest_amended c6DB c6Entry (by decide)

/-- The database of C7's counterexample: a manifest row for `"f.tar.gz"`
and an existing `src_uri` row mapping it to a URI. -/
def c7DB : Portcache.RepoDB.DB :=
  { manifest := [{ file := "f.tar.gz", origin := "/repo/cat/pkg/Manifest", size := 3,
                   blake2b := some "NULL", sha512 := some "NULL" }],
    src_uri := [("http://x/f.tar.gz", "f.tar.gz")] }

/-- C7 counterexample: the claim says inserting a `(file, uri)` pair
whose uri already exists is ignored rather than reported as an error;
but the plain INSERT hits the primary-key constraint on `uri` and the
call returns an error. -/
theorem C7_counterexample :
    Portcache.RepoDB.insert_src_uri c7DB "f.tar.gz" "http://x/f.tar.gz" =
      .error .primaryKeyConflict := rfl

/-- C7 as amended: a duplicate URI is not ignored: whenever the uri is
already present in `src_uri`, `insert_src_uri` returns a primary-key
constraint error (the table contents are unchanged — the operation
returns no new database state). -/
theorem C7_insert_src_uri_amended (db : Portcache.RepoDB.DB) (file uri : String)
    (h : db.src_uri.any (fun p => p.1 == uri) = true) :
    Portcache.RepoDB.insert_src_uri db file uri = .error .primaryKeyConflict := by
  unfold Portcache.RepoDB.insert_src_uri
  simp [h]

/-- The database of C7's witness: two `src_uri` rows. -/
def c7DB2 : Portcache.RepoDB.DB :=
  { manifest := [{ file := "f.tar.gz", origin := "/repo/cat/pkg/Manifest", size := 3,
                   blake2b := some "NULL", sha512 := some "NULL" }],
    src_uri := [("http://x/f.tar.gz", "f.tar.gz"), ("http://y/f.tar.gz", "f.tar.gz")] }

/-- C7 witness: the amended theorem applied at a concrete database whose
`src_uri` table already holds the uri. -/
theorem C7_insert_src_uri_amended_witness :
    Portcache.RepoDB.insert_src_uri c7DB2 "f.tar.gz" "http://y/f.tar.gz" =
      .error .primaryKeyConflict :=
  C7_insert_src_uri_amended c7DB2 "f.tar.gz" "http://y/f.tar.gz" (by decide)

/-- C9 counterexample: the claim says a git error while syncing one repo
still lets the tick run manifest parsing; but `sync` returns err as soon
as its accumulated failure list is non-empty, and the tick body
`continue`s on a sync error, so `parse_manifests` does not run. -/
theorem C9_counterexample :
    (Portcache.RepoSyncer.sync [("gentoo", .synced), ("guru", .fetchErr)]).2 =
      .error "failed repos" ∧
    (Portcache.RepoSyncer.tick
        (Portcache.RepoSyncer.sync [("gentoo", .synced), ("guru", .fetchErr)]).2
        (.ok [])).ranParseManifests = false := ⟨rfl, rfl⟩

theorem syncLoop_visited (repos : List (String × Portcache.RepoSyncer.RepoOutcome)) :
    (Portcache.RepoSyncer.syncLoop repos).1 = repos.map (fun p => p.1) := by
  induction repos with
  | nil => rfl
  | cons p rest ih =>
    unfold Portcache.RepoSyncer.syncLoop
    simp [ih]

theorem syncLoop_failed_empty (repos : List (String × Portcache.RepoSyncer.RepoOutcome)) :
    (Portcache.RepoSyncer.syncLoop repos).2.isEmpty =
      repos.all (fun p => p.2 == .synced) := by
  induction repos with
  | nil => rfl
  | cons p rest ih =>
    unfold Portcache.RepoSyncer.syncLoop
    by_cases h : p.2 = Portcache.RepoSyncer.RepoOutcome.synced
    · simp [h, ih]
    · simp [h]

/-- C9 as amended: within `sync` a failing repo does not block the
others — every repo directory is visited regardless of the outcomes —
but the tick runs `parse_manifests` only when every repo synced
cleanly: any git failure makes `sync` return err and the tick skips
manifest (and ebuild) parsing until the next tick. -/
theorem C9_sync_tick_amended (repos : List (String × Portcache.RepoSyncer.RepoOutcome))
    (pm : Except String (List String)) :
    (Portcache.RepoSyncer.sync repos).1 = repos.map (fun p => p.1) ∧
    (Portcache.RepoSyncer.tick (Portcache.RepoSyncer.sync repos).2 pm).ranParseManifests =
      repos.all (fun p => p.2 == .synced) := by
  constructor
  · unfold Portcache.RepoSyncer.sync
    simpa using syncLoop_visited repos
  · unfold Portcache.RepoSyncer.sync Portcache.RepoSyncer.tick
    rw [← syncLoop_failed_empty repos]
    by_cases h : (Portcache.RepoSyncer.syncLoop repos).2.isEmpty = true
    · simp only [h, if_true, ite_true]
      cases pm <;> rfl
    · simp [Bool.eq_false_iff.mpr h]

theorem entriesOfLines_cons (origin line : String) (rest : List String) :
    Portcache.ManifestWalker.entriesOfLines origin (line :: rest) =
      match Portcache.ManifestWalker.parse origin line with
      | .error _ => Portcache.ManifestWalker.entriesOfLines origin rest
      | .ok e => e :: Portcache.ManifestWalker.entriesOfLines origin rest := rfl

theorem entriesOfLines_append (origin : String) (xs ys : List String) :
    Portcache.ManifestWalker.entriesOfLines origin (xs ++ ys) =
      Portcache.ManifestWalker.entriesOfLines origin xs ++
        Portcache.ManifestWalker.entriesOfLines origin ys := by
  induction xs with
  | nil => rfl
  | cons l rest ih =>
    rw [List.cons_append, entriesOfLines_cons, entriesOfLines_cons]
    cases Portcache.ManifestWalker.parse origin l <;> simp [ih]

theorem stripPlus_of_head_ne (c : Char) (cs : List Char) (hc : c ≠ '+') :
    Portcache.ManifestWalker.stripPlus (c :: cs) = c :: cs := by
  unfold Portcache.ManifestWalker.stripPlus
  split
  · rename_i heq
    rw [List.cons.injEq] at heq
    exact absurd heq.1 hc
  · rfl

theorem parseU32_overflow (sz : String)
    (hdig : sz.toList.all Char.isDigit = true)
    (hne : sz.toList.isEmpty = false)
    (hbig : 4294967296 ≤ Portcache.ManifestWalker.natOfDigits sz.toList) :
    Portcache.ManifestWalker.parseU32 sz = .error () := by
  unfold Portcache.ManifestWalker.parseU32
  cases hcs : sz.toList with
  | nil => rw [hcs] at hne; simp at hne
  | cons c cs2 =>
    rw [hcs] at hdig hbig
    by_cases hc : c = '+'
    · subst hc
      rw [List.all_cons] at hdig
      have hpd : ('+').isDigit = true := (Bool.and_eq_true_iff.mp hdig).1
      simp at hpd
    · rw [stripPlus_of_head_ne c cs2 hc]
      unfold Portcache.ManifestWalker.parseU32Digits
      have hnotnil : (c :: cs2).isEmpty = false := rfl
      rw [hnotnil, hdig]
      simp only [Bool.false_eq_true, if_false, if_true, ite_true, ite_false]
      rw [if_neg (by omega)]

/-- C10: a `DIST <name> <size>` line whose size field is a decimal
numeral at or above `2^32` — or is otherwise unparsable as `u32` — does
not parse: `ManifestEntry::parse` returns an error, and the walker's
per-line loop skips the line while continuing with the rest of the
Manifest file. -/
theorem C10_size_must_fit_u32 (origin line name sz : String) (pre post : List String)
    (hsplit : Portcache.ManifestWalker.splitWhitespace line = ["DIST", name, sz])
    (hbad : (sz.toList.all Char.isDigit = true ∧ sz.toList.isEmpty = false ∧
        4294967296 ≤ Portcache.ManifestWalker.natOfDigits sz.toList) ∨
      Portcache.ManifestWalker.parseU32 sz = .error ()) :
    Portcache.ManifestWalker.parse origin line = .error "size does not parse as u32" ∧
    Portcache.ManifestWalker.entriesOfLines origin (pre ++ line :: post) =
      Portcache.ManifestWalker.entriesOfLines origin pre ++
        Portcache.ManifestWalker.entriesOfLines origin post := by
  have hu32 : Portcache.ManifestWalker.parseU32 sz = .error () := by
    rcases hbad with ⟨h1, h2, h3⟩ | h
    · exact parseU32_overflow sz h1 h2 h3
    · exact h
  have hdist : ∀ (rest3 : List String) (f : Option String) (s : Option Nat)
      (b2 s5 : Option String),
      Portcache.ManifestWalker.parseTokens origin ("DIST" :: name :: sz :: rest3) f s b2 s5 =
        match Portcache.ManifestWalker.parseU32 sz with
        | .error _ => .error "size does not parse as u32"
        | .ok n => Portcache.ManifestWalker.parseTokens origin rest3 (some name) (some n) b2 s5 :=
    fun rest3 f s b2 s5 => rfl
  have hperr : Portcache.ManifestWalker.parse origin line = .error "size does not parse as u32" := by
    unfold Portcache.ManifestWalker.parse
    rw [hsplit, hdist, hu32]
  refine ⟨hperr, ?_⟩
  rw [entriesOfLines_append, entriesOfLines_cons, hperr]

/-- C10 witness: the theorem applied to the concrete line
`DIST foo.tar.gz 4294967296` (size `2^32`) between two good lines. -/
theorem C10_size_must_fit_u32_witness :
    Portcache.ManifestWalker.parse "/m" "DIST foo.tar.gz 4294967296" =
      .error "size does not parse as u32" ∧
    Portcache.ManifestWalker.entriesOfLines "/m"
        (["DIST a.tar.gz 1"] ++ "DIST foo.tar.gz 4294967296" :: ["DIST b.tar.gz 2"]) =
      Portcache.ManifestWalker.entriesOfLines "/m" ["DIST a.tar.gz 1"] ++
        Portcache.ManifestWalker.entriesOfLines "/m" ["DIST b.tar.gz 2"] :=
  C10_size_must_fit_u32 "/m" "DIST foo.tar.gz 4294967296" "foo.tar.gz" "4294967296"
    ["DIST a.tar.gz 1"] ["DIST b.tar.gz 2"] (by decide)
    (Or.inl ⟨by decide, by decide, by decide⟩)

/-- The bad state for C1: task 0 has finished its (vacuously successful)
fetch, while tasks 1 and 2 — both woken by the success broadcast with no
file on disk — are each inside `fetcher.fetch`. -/
def c1Bad : Portcache.BlobStorage.Sys :=
  { tasks := [.finalCheck false, .fetching true, .fetching true],
    job := false, permit := false, file := false }

/-- C1: evaluation at the failing input.  With three concurrent
`request` calls for one absent file, the leader's `fetcher.fetch` can
return ok without producing a file (all mirrors fail and the SRC_URI
list is empty); `request` then removes the job and wakes ALL waiters,
each of which observes the file absent and calls `fetcher.fetch` — a
reachable state has two fetches in flight for the same filename, against
the claimed at-most-one guarantee. -/
theorem C1_two_fetches_in_flight :
    Portcache.BlobStorage.Reachable (Portcache.BlobStorage.init 3) c1Bad ∧
    Portcache.BlobStorage.fetchingCount c1Bad.tasks = 2 := by
  constructor
  · refine Relation.ReflTransGen.head
      (Portcache.BlobStorage.Step.enterLead _ 0 rfl rfl rfl) ?_
    refine Relation.ReflTransGen.head
      (Portcache.BlobStorage.Step.enterWait _ 1 rfl rfl) ?_
    refine Relation.ReflTransGen.head
      (Portcache.BlobStorage.Step.notifiedPark _ 1 rfl rfl) ?_
    refine Relation.ReflTransGen.head
      (Portcache.BlobStorage.Step.enterWait _ 2 rfl rfl) ?_
    refine Relation.ReflTransGen.head
      (Portcache.BlobStorage.Step.notifiedPark _ 2 rfl rfl) ?_
    refine Relation.ReflTransGen.head
      (Portcache.BlobStorage.Step.fetchOkNoFile _ 0 false rfl) ?_
    refine Relation.ReflTransGen.head
      (Portcache.BlobStorage.Step.afterRemove _ 0 false rfl rfl) ?_
    refine Relation.ReflTransGen.head
      (Portcache.BlobStorage.Step.wokenFetch _ 1 rfl rfl) ?_
    refine Relation.ReflTransGen.head
      (Portcache.BlobStorage.Step.wokenFetch _ 2 rfl rfl) ?_
    exact Relation.ReflTransGen.refl
  · decide
